import Mathlib

/-!
Shallow embedding of `speed_display.py` (ANT+ speed display):
the `Database` (SQLite-backed daily-distance ledger), the `Statistics`
session aggregator, and the reconnect counter of `SpeedDisplayApp`.

Modelling conventions:
* Python `float` distances/speeds are modelled as `ℚ` (the spec's claims
  allow "within floating tolerance"; the rational model is exact).
* A calendar `date` is an integer day number; `timedelta(days=1)` is `- 1`;
  two dates are equal iff their ISO strings are, so integer equality is
  faithful.
* Wall-clock values (`datetime.now().date()`, `datetime.now()`) are passed
  explicitly as parameters `today : ℤ` and `now : ℚ` to each operation that
  reads the clock.
* The SQLite table `daily_distance(date TEXT PRIMARY KEY, device_id, distance,
  last_updated)` is a list of rows; an INSERT whose `date` already occurs
  raises IntegrityError, which the Python code catches, returning `False`
  with the table unchanged (the commit is never reached).
-/

/-- One row of the `daily_distance` table
(`date TEXT PRIMARY KEY, device_id INTEGER, distance REAL, last_updated TIMESTAMP`). -/
structure Row where
  date : ℤ
  device_id : ℤ
  distance : ℚ
  last_updated : ℚ
deriving DecidableEq

/-- The `WHERE date = ? AND device_id = ?` predicate used by the SELECT /
UPDATE statements of `Database`. -/
def rowMatches (target_date device_id : ℤ) (r : Row) : Bool :=
  r.date == target_date && r.device_id == device_id

/-- `Database._cleanup_old_data`: `DELETE FROM daily_distance WHERE date != today
AND date != yesterday`, with `today`/`yesterday` taken from the wall clock at
call time. -/
def cleanup_old_data (today : ℤ) (t : List Row) : List Row :=
  t.filter (fun r => r.date == today || r.date == today - 1)

/-- `Database.get_distance_for_date`: `SELECT distance ... WHERE date = ? AND
device_id = ?`, returning the row's distance or `0.0` when absent (and on any
caught read error, which the pure model has none of). -/
def get_distance_for_date (t : List Row) (device_id : ℤ) (target_date : ℤ) : ℚ :=
  match t.find? (rowMatches target_date device_id) with
  | some r => r.distance
  | none => 0

/-- `Database.update_distance_for_date device_id target_date distance`:
rejects `distance <= 0.02` with no write; otherwise UPDATEs the matching
`(date, device_id)` row by adding `distance`, or INSERTs a fresh row — the
INSERT violates the `date` PRIMARY KEY when any row with that date already
exists, the exception is caught and `False` returned with the table unchanged.
On success it commits, runs `_cleanup_old_data` and returns `True`.
`today`/`now` are the wall clock at call time. -/
def update_distance_for_date (today : ℤ) (now : ℚ) (t : List Row)
    (device_id : ℤ) (target_date : ℤ) (distance : ℚ) : Bool × List Row :=
  if distance ≤ 1/50 then
    (false, t)
  else
    match t.find? (rowMatches target_date device_id) with
    | some _ =>
      let t2 := t.map (fun r =>
        if rowMatches target_date device_id r then
          { r with distance := r.distance + distance, last_updated := now }
        else r)
      (true, cleanup_old_data today t2)
    | none =>
      if t.any (fun r => r.date == target_date) then
        (false, t)
      else
        (true, cleanup_old_data today
          (t ++ [{ date := target_date, device_id := device_id,
                   distance := distance, last_updated := now }]))

/-- The mutable state of a `Statistics` object (the fields of
`Statistics.__init__` that the embedded operations read or write). -/
structure Stats where
  device_id : ℤ
  db_connected : Bool
  session_distance : ℚ
  current_speed : ℚ
  max_speed : ℚ
  speed_sum : ℚ
  speed_count : ℕ
  current_date : ℤ
  today_distance : ℚ
  yesterday_distance : ℚ
deriving DecidableEq

/-- `Statistics.__init__` followed by `_load_daily_distances`: zero session
stats, `current_date` from the wall clock, and today's/yesterday's distances
loaded from the database when connected (otherwise left at `0.0`). -/
def Stats.init (device_id : ℤ) (db_connected : Bool) (today : ℤ)
    (t : List Row) : Stats :=
  { device_id := device_id
    db_connected := db_connected
    session_distance := 0
    current_speed := 0
    max_speed := 0
    speed_sum := 0
    speed_count := 0
    current_date := today
    today_distance := if db_connected then get_distance_for_date t device_id today else 0
    yesterday_distance :=
      if db_connected then get_distance_for_date t device_id (today - 1) else 0 }

/-- `Statistics._check_date_change`: compares the wall-clock date `today` with
`current_date`; when unchanged it is a no-op returning `False`. When changed it
flushes `session_distance` to the *old* `current_date` (only when connected and
above the `0.02` noise floor; the write's result and any exception are
ignored), shifts `today_distance` into `yesterday_distance`, adopts the new
date, reloads `today_distance` from the database for the new date (0 when not
connected), resets `session_distance` to 0 and returns `True`. -/
def check_date_change (today : ℤ) (now : ℚ) (s : Stats) (t : List Row) :
    Bool × Stats × List Row :=
  if today = s.current_date then
    (false, s, t)
  else
    let t1 :=
      if s.db_connected = true ∧ 1/50 < s.session_distance then
        (update_distance_for_date today now t s.device_id s.current_date
          s.session_distance).2
      else t
    let new_today :=
      if s.db_connected = true then get_distance_for_date t1 s.device_id today else 0
    (true,
      { s with
        yesterday_distance := s.today_distance
        current_date := today
        today_distance := new_today
        session_distance := 0 }, t1)

/-- `Statistics.update_speed speed_mph`: date-change check, then updates
`current_speed`, raises `max_speed` when exceeded, and accumulates
`speed_sum`/`speed_count` for the session average. -/
def update_speed (today : ℤ) (now : ℚ) (speed_mph : ℚ) (s : Stats)
    (t : List Row) : Stats × List Row :=
  let c := check_date_change today now s t
  let s1 := c.2.1
  ({ s1 with
      current_speed := speed_mph
      max_speed := if s1.max_speed < speed_mph then speed_mph else s1.max_speed
      speed_sum := s1.speed_sum + speed_mph
      speed_count := s1.speed_count + 1 }, c.2.2)

/-- `Statistics.add_distance distance_miles`: date-change check, then adds the
delta to `session_distance`. -/
def add_distance (today : ℤ) (now : ℚ) (distance_miles : ℚ) (s : Stats)
    (t : List Row) : Stats × List Row :=
  let c := check_date_change today now s t
  let s1 := c.2.1
  ({ s1 with session_distance := s1.session_distance + distance_miles }, c.2.2)

/-- `Statistics.save_to_database`: date-change check; returns `False` with no
write when not connected or `session_distance <= 0.02`; otherwise calls
`update_distance_for_date` for `current_date` and, on success, folds the
flushed amount into `today_distance` and resets `session_distance` to 0,
returning the write's result. -/
def save_to_database (today : ℤ) (now : ℚ) (s : Stats) (t : List Row) :
    Bool × Stats × List Row :=
  let c := check_date_change today now s t
  let s1 := c.2.1
  let t1 := c.2.2
  if s1.db_connected = false ∨ s1.session_distance ≤ 1/50 then
    (false, s1, t1)
  else
    let u := update_distance_for_date today now t1 s1.device_id s1.current_date
      s1.session_distance
    if u.1 then
      (true,
        { s1 with
          today_distance := s1.today_distance + s1.session_distance
          session_distance := 0 }, u.2)
    else
      (false, s1, u.2)

/-- `Statistics.get_avg_speed`: `speed_sum / speed_count` when any sample was
recorded, else `0.0`. -/
def get_avg_speed (s : Stats) : ℚ :=
  if 0 < s.speed_count then s.speed_sum / s.speed_count else 0

/-- `Statistics.get_total_today_distance`: date-change check, then
`today_distance + session_distance`. -/
def get_total_today_distance (today : ℤ) (now : ℚ) (s : Stats) (t : List Row) :
    ℚ × Stats × List Row :=
  let c := check_date_change today now s t
  (c.2.1.today_distance + c.2.1.session_distance, c.2.1, c.2.2)

/-- `SpeedDisplayApp.calculate_distance`: `(speed_mph / 3600.0) * elapsed_seconds`. -/
def calculate_distance (speed_mph elapsed_seconds : ℚ) : ℚ :=
  speed_mph / 3600 * elapsed_seconds

/-- `SpeedDisplayApp.attempt_reconnect`, restricted to the fields the claim is
about: it increments `connection_attempts`, gives up (returns `False`) when the
counter exceeds `max_connection_attempts`, and otherwise returns the outcome of
the underlying `initialize_ant` attempt (a parameter `init_ok` here; the
`cleanup`/`sleep` side effects touch neither the counter nor the result). -/
def attempt_reconnect (max_connection_attempts : ℕ) (init_ok : Bool)
    (connection_attempts : ℕ) : Bool × ℕ :=
  let a := connection_attempts + 1
  if max_connection_attempts < a then (false, a) else (init_ok, a)

/-- The reconnect counter after `n` consecutive `attempt_reconnect` calls whose
underlying `initialize_ant` all fail, starting from `connection_attempts = 0`. -/
def failed_attempt_counter (max_connection_attempts : ℕ) : ℕ → ℕ
  | 0 => 0
  | n + 1 =>
    (attempt_reconnect max_connection_attempts false
      (failed_attempt_counter max_connection_attempts n)).2

/-- A sequence of `update_distance_for_date` calls (each `(device_id,
target_date, distance)`), threading the table through. -/
def apply_merges (today : ℤ) (now : ℚ) (t : List Row)
    (calls : List (ℤ × ℤ × ℚ)) : List Row :=
  calls.foldl
    (fun acc c => (update_distance_for_date today now acc c.1 c.2.1 c.2.2).2) t

/-- A sequence of `update_speed` calls, each `(today, now, speed_mph)`,
threading statistics and table through. -/
def apply_update_speeds (ops : List (ℤ × ℚ × ℚ)) (s : Stats) (t : List Row) :
    Stats × List Row :=
  ops.foldl (fun st op => update_speed op.1 op.2.1 op.2.2 st.1 st.2) (s, t)

/-- Modelled from the spec (refinement target for C1, not from the source):
the trailing-window average — the arithmetic mean of the speed values of the
timestamped samples with `t >= t_now - window`, boundary inclusive, and `0`
when no sample lies in the window. -/
def trailing_window_avg (history : List (ℚ × ℚ)) (window t_now : ℚ) : ℚ :=
  let inWin := history.filter (fun p => t_now - window ≤ p.1)
  if 0 < inWin.length then (inWin.map Prod.snd).sum / inWin.length else 0

/-- Claim C4's description of the rollover, as a predicate on the state before
a `_check_date_change` call whose wall-clock date is `today`: the call reports
a change, flushes the session distance to the *old* date exactly when connected
and above the noise floor, shifts today's total into yesterday's, adopts the
new date, reloads today's total from the (post-flush) table when connected,
and zeroes the session distance. -/
def rollover_step_spec (today : ℤ) (now : ℚ) (s : Stats) (t : List Row) : Prop :=
  (check_date_change today now s t).1 = true
  ∧ (check_date_change today now s t).2.2
      = (if s.db_connected = true ∧ 1/50 < s.session_distance then
          (update_distance_for_date today now t s.device_id s.current_date
            s.session_distance).2
         else t)
  ∧ (check_date_change today now s t).2.1.yesterday_distance = s.today_distance
  ∧ (check_date_change today now s t).2.1.current_date = today
  ∧ (check_date_change today now s t).2.1.today_distance
      = (if s.db_connected = true then
          get_distance_for_date (check_date_change today now s t).2.2 s.device_id today
         else 0)
  ∧ (check_date_change today now s t).2.1.session_distance = 0

/-- Claim C5's postcondition for a successful merge: afterwards the stored
distance for the key is the prior value plus the delta, and every surviving
row is dated wall-clock today or yesterday. -/
def merge_get_spec (today : ℤ) (now : ℚ) (t : List Row)
    (device_id target_date : ℤ) (dist : ℚ) : Prop :=
  get_distance_for_date (update_distance_for_date today now t device_id target_date dist).2
      device_id target_date
    = get_distance_for_date t device_id target_date + dist
  ∧ ∀ r ∈ (update_distance_for_date today now t device_id target_date dist).2,
      r.date = today ∨ r.date = today - 1

/-- Claim C6's no-op property: every call of a below-noise-floor sequence
returns `false` and writes nothing, so the table is unchanged. -/
def merges_noop_spec (today : ℤ) (now : ℚ) (t : List Row)
    (calls : List (ℤ × ℤ × ℚ)) : Prop :=
  apply_merges today now t calls = t
  ∧ ∀ c ∈ calls, update_distance_for_date today now t c.1 c.2.1 c.2.2 = (false, t)

/-- Claim C7's contract for `save_to_database` (with no date change pending):
the result is `true` exactly when a ledger write happened; below the noise
floor (or disconnected) nothing at all happens; a successful flush moves the
session distance into `today_distance` (preserving their sum) and zeroes the
session; and an immediately repeated call is a no-op returning `false`. -/
def flush_spec (today : ℤ) (now now2 : ℚ) (s : Stats) (t : List Row) : Prop :=
  ((save_to_database today now s t).1 = true ↔
    (s.db_connected = true ∧ 1/50 < s.session_distance ∧
      (update_distance_for_date today now t s.device_id s.current_date
        s.session_distance).1 = true))
  ∧ ((s.db_connected = false ∨ s.session_distance ≤ 1/50) →
      save_to_database today now s t = (false, s, t))
  ∧ ((save_to_database today now s t).1 = true →
      (save_to_database today now s t).2.1.today_distance
          = s.today_distance + s.session_distance
      ∧ (save_to_database today now s t).2.1.session_distance = 0
      ∧ (save_to_database today now s t).2.1.today_distance
          + (save_to_database today now s t).2.1.session_distance
          = s.today_distance + s.session_distance)
  ∧ ((save_to_database today now s t).1 = true →
      save_to_database today now2 (save_to_database today now s t).2.1
          (save_to_database today now s t).2.2
        = (false, (save_to_database today now s t).2.1,
            (save_to_database today now s t).2.2))

/-- Claim C8's idempotence property: a `_check_date_change` at the changed
date reports the rollover, and after any one of the four public `Statistics`
operations has run at that date, a second `_check_date_change` returns `false`
and leaves the statistics and the table exactly as they were. -/
def rollover_once_spec (today : ℤ) (now now2 v d : ℚ) (s : Stats)
    (t : List Row) : Prop :=
  (check_date_change today now s t).1 = true
  ∧ check_date_change today now2 (update_speed today now v s t).1
      (update_speed today now v s t).2
      = (false, (update_speed today now v s t).1, (update_speed today now v s t).2)
  ∧ check_date_change today now2 (add_distance today now d s t).1
      (add_distance today now d s t).2
      = (false, (add_distance today now d s t).1, (add_distance today now d s t).2)
  ∧ check_date_change today now2 (save_to_database today now s t).2.1
      (save_to_database today now s t).2.2
      = (false, (save_to_database today now s t).2.1,
          (save_to_database today now s t).2.2)
  ∧ check_date_change today now2 (get_total_today_distance today now s t).2.1
      (get_total_today_distance today now s t).2.2
      = (false, (get_total_today_distance today now s t).2.1,
          (get_total_today_distance today now s t).2.2)

/-- Claim C10's discard property: at a rollover the new date is adopted and the
session distance is zeroed whatever the flush did, and whenever the flush to
the old date would fail the table is left unchanged — the old day's unflushed
session distance is simply dropped. -/
def rollover_discard_spec (today : ℤ) (now : ℚ) (s : Stats) (t : List Row) : Prop :=
  (check_date_change today now s t).2.1.current_date = today
  ∧ (check_date_change today now s t).2.1.session_distance = 0
  ∧ ((update_distance_for_date today now t s.device_id s.current_date
        s.session_distance).1 = false →
      (check_date_change today now s t).2.2 = t)

/-- A `Statistics` state holding one mile of unflushed session distance for
day 0, with the database connected. -/
def pending_session_stats : Stats :=
  { device_id := 1
    db_connected := true
    session_distance := 1
    current_speed := 0
    max_speed := 0
    speed_sum := 0
    speed_count := 0
    current_date := 0
    today_distance := 2
    yesterday_distance := 0 }

/-- A table in which another device already owns the `date` primary key for
day 0, so any insert for day 0 by a different device fails. -/
def conflicting_table : List Row :=
  [{ date := 0, device_id := 2, distance := 3, last_updated := 0 }]

/-! ### Helper lemmas -/

theorem check_date_change_eq_self (today : ℤ) (now : ℚ) (s : Stats) (t : List Row)
    (h : today = s.current_date) : check_date_change today now s t = (false, s, t) := by
  simp [check_date_change, h]

theorem check_date_change_current_date (today : ℤ) (now : ℚ) (s : Stats) (t : List Row) :
    (check_date_change today now s t).2.1.current_date = today := by
  unfold check_date_change
  split
  · simp_all
  · rfl

theorem check_date_change_speed_sum (today : ℤ) (now : ℚ) (s : Stats) (t : List Row) :
    (check_date_change today now s t).2.1.speed_sum = s.speed_sum := by
  unfold check_date_change
  split <;> rfl

theorem check_date_change_speed_count (today : ℤ) (now : ℚ) (s : Stats) (t : List Row) :
    (check_date_change today now s t).2.1.speed_count = s.speed_count := by
  unfold check_date_change
  split <;> rfl

theorem update_speed_speed_sum (today : ℤ) (now v : ℚ) (s : Stats) (t : List Row) :
    (update_speed today now v s t).1.speed_sum = s.speed_sum + v := by
  simp [update_speed, check_date_change_speed_sum]

theorem update_speed_speed_count (today : ℤ) (now v : ℚ) (s : Stats) (t : List Row) :
    (update_speed today now v s t).1.speed_count = s.speed_count + 1 := by
  simp [update_speed, check_date_change_speed_count]

theorem update_speed_current_date (today : ℤ) (now v : ℚ) (s : Stats) (t : List Row) :
    (update_speed today now v s t).1.current_date = today := by
  simp [update_speed, check_date_change_current_date]

theorem add_distance_current_date (today : ℤ) (now d : ℚ) (s : Stats) (t : List Row) :
    (add_distance today now d s t).1.current_date = today := by
  simp [add_distance, check_date_change_current_date]

theorem save_to_database_current_date (today : ℤ) (now : ℚ) (s : Stats) (t : List Row) :
    (save_to_database today now s t).2.1.current_date = today := by
  simp only [save_to_database]
  split
  · exact check_date_change_current_date today now s t
  · split
    · exact check_date_change_current_date today now s t
    · exact check_date_change_current_date today now s t

theorem get_total_today_distance_current_date (today : ℤ) (now : ℚ) (s : Stats)
    (t : List Row) :
    (get_total_today_distance today now s t).2.1.current_date = today := by
  simp [get_total_today_distance, check_date_change_current_date]

theorem update_distance_for_date_fail (today : ℤ) (now : ℚ) (t : List Row)
    (device_id target_date : ℤ) (dist : ℚ)
    (h : (update_distance_for_date today now t device_id target_date dist).1 = false) :
    (update_distance_for_date today now t device_id target_date dist).2 = t := by
  unfold update_distance_for_date at h ⊢
  by_cases hfloor : dist ≤ 1/50
  · rw [if_pos hfloor]
  · rw [if_neg hfloor] at h ⊢
    cases hfind : t.find? (rowMatches target_date device_id) with
    | none =>
      simp only [hfind] at h ⊢
      by_cases hany : (t.any fun r => r.date == target_date) = true
      · rw [if_pos hany]
      · rw [if_neg hany] at h
        exact absurd h (by simp)
    | some r =>
      simp only [hfind] at h
      exact absurd h (by simp)

theorem find?_filter_eq_of_imp {α : Type} (p q : α → Bool) (l : List α)
    (h : ∀ x, q x = true → p x = true) :
    (l.filter p).find? q = l.find? q := by
  induction l with
  | nil => rfl
  | cons a l ih =>
    by_cases hq : q a = true
    · simp [List.filter_cons, h a hq, hq]
    · by_cases hp : p a = true
      · simp [List.filter_cons, hp, hq, ih]
      · simp [List.filter_cons, hp, hq, ih]

theorem mem_cleanup_old_data (today : ℤ) (t : List Row) (r : Row)
    (h : r ∈ cleanup_old_data today t) : r.date = today ∨ r.date = today - 1 := by
  simp [cleanup_old_data, List.mem_filter] at h
  tauto

theorem apply_update_speeds_cons (op : ℤ × ℚ × ℚ) (ops : List (ℤ × ℚ × ℚ))
    (s : Stats) (t : List Row) :
    apply_update_speeds (op :: ops) s t
      = apply_update_speeds ops (update_speed op.1 op.2.1 op.2.2 s t).1
          (update_speed op.1 op.2.1 op.2.2 s t).2 := rfl

theorem apply_update_speeds_speed_sum (ops : List (ℤ × ℚ × ℚ)) (s : Stats) (t : List Row) :
    (apply_update_speeds ops s t).1.speed_sum
      = s.speed_sum + (ops.map fun op => op.2.2).sum := by
  induction ops generalizing s t with
  | nil => simp [apply_update_speeds]
  | cons op ops ih =>
    rw [apply_update_speeds_cons, ih, update_speed_speed_sum]
    simp [add_assoc]

theorem apply_update_speeds_speed_count (ops : List (ℤ × ℚ × ℚ)) (s : Stats) (t : List Row) :
    (apply_update_speeds ops s t).1.speed_count = s.speed_count + ops.length := by
  induction ops generalizing s t with
  | nil => simp [apply_update_speeds]
  | cons op ops ih =>
    rw [apply_update_speeds_cons, ih, update_speed_speed_count]
    simp only [List.length_cons]
    omega

theorem update_distance_for_date_noise (today : ℤ) (now : ℚ) (t : List Row)
    (device_id target_date : ℤ) (dist : ℚ) (h : dist ≤ 1/50) :
    update_distance_for_date today now t device_id target_date dist = (false, t) := by
  unfold update_distance_for_date
  rw [if_pos h]

theorem apply_merges_noop (today : ℤ) (now : ℚ) (t : List Row)
    (calls : List (ℤ × ℤ × ℚ)) :
    (∀ c ∈ calls, c.2.2 ≤ 1/50) → apply_merges today now t calls = t := by
  induction calls with
  | nil => intro _; rfl
  | cons c cs ih =>
    intro h
    have hc : (update_distance_for_date today now t c.1 c.2.1 c.2.2).2 = t := by
      rw [update_distance_for_date_noise today now t c.1 c.2.1 c.2.2
        (h c (List.mem_cons_self c cs))]
    have step : apply_merges today now t (c :: cs)
        = apply_merges today now ((update_distance_for_date today now t c.1 c.2.1 c.2.2).2)
            cs := rfl
    rw [step, hc]
    exact ih fun x hx => h x (List.mem_cons_of_mem c hx)

/-! ### Claim theorems -/

/-- C1, counterexample: record speed 0 at time 0 and speed 10 at time 1000.
With the spec's 300-unit trailing window at `t_now = 1000` only the second
sample is in the window, so the claimed trailing-window mean is `10`; but
`get_avg_speed` returns `5`, the cumulative mean of both samples. -/
theorem C1_counterexample :
    get_avg_speed (apply_update_speeds [(0, 0, 0), (0, 1000, 10)]
        (Stats.init 1 false 0 []) []).1 = 5
    ∧ trailing_window_avg [(0, 0), (1000, 10)] 300 1000 = 10
    ∧ (5 : ℚ) ≠ 10 := by
  refine ⟨?_, ?_, by norm_num⟩
  · norm_num [get_avg_speed, apply_update_speeds, update_speed, check_date_change, Stats.init]
  · norm_num [trailing_window_avg, List.filter]

/-- C1, amended: `get_avg_speed` after any sequence of `update_speed` calls on
a fresh `Statistics` object is the arithmetic mean of all recorded samples
since the session started (`0` when there are none) — a cumulative-session
average, not a trailing-window average. -/
theorem C1_amended (device_id : ℤ) (conn : Bool) (d0 : ℤ) (t0 : List Row)
    (ops : List (ℤ × ℚ × ℚ)) :
    get_avg_speed (apply_update_speeds ops (Stats.init device_id conn d0 t0) t0).1
      = if ops.length = 0 then 0
        else (ops.map fun op => op.2.2).sum / (ops.length : ℚ) := by
  have hsum := apply_update_speeds_speed_sum ops (Stats.init device_id conn d0 t0) t0
  have hcount := apply_update_speeds_speed_count ops (Stats.init device_id conn d0 t0) t0
  unfold get_avg_speed
  rw [hsum, hcount]
  rcases Nat.eq_zero_or_pos ops.length with hl | hl
  · simp [hl, Stats.init]
  · rw [if_pos (by simpa [Stats.init] using hl), if_neg (Nat.pos_iff_ne_zero.mp hl)]
    simp [Stats.init]

/-- C2, counterexample: after five consecutive failed reconnect attempts the
counter stands at the bound 5; a sixth call advances it to 6, strictly beyond
the bound — the code increments, it does not clamp. -/
theorem C2_counterexample :
    failed_attempt_counter 5 5 = 5
    ∧ (attempt_reconnect 5 false (failed_attempt_counter 5 5)).2 = 6
    ∧ ¬(attempt_reconnect 5 false (failed_attempt_counter 5 5)).2 ≤ 5 := by decide

/-- C2, amended: with the bound at 5, five consecutive failed attempts leave
the counter at 5 and the fifth call returns `false`; every further call (made
with the counter at or beyond the bound) returns `false` without attempting a
reconnect, but advances the counter by one past the bound instead of clamping
it. -/
theorem C2_amended :
    failed_attempt_counter 5 5 = 5
    ∧ (attempt_reconnect 5 false (failed_attempt_counter 5 4)).1 = false
    ∧ ∀ (init_ok : Bool) (c : ℕ), 5 ≤ c →
        (attempt_reconnect 5 init_ok c).1 = false
        ∧ (attempt_reconnect 5 init_ok c).2 = c + 1 := by
  refine ⟨by decide, by decide, ?_⟩
  intro init_ok c hc
  have h5 : 5 < c + 1 := Nat.lt_succ_of_le hc
  simp [attempt_reconnect, h5]

theorem C2_amended_witness :
    (attempt_reconnect 5 true 5).1 = false ∧ (attempt_reconnect 5 true 5).2 = 6 :=
  C2_amended.2.2 true 5 (by decide)

/-- C3, code evaluated at the failing input: the table's PRIMARY KEY is `date`
alone, so after device 1 successfully merges one mile for day 5, device 2's
merge for the same day fails (IntegrityError, caught, `False`), leaves the
table unchanged, and device 2's stored distance stays 0 — distinct device ids
do not get independent records for the same date. -/
theorem C3_code_eval :
    (update_distance_for_date 5 0 [] 1 5 1).1 = true
    ∧ (update_distance_for_date 5 0 (update_distance_for_date 5 0 [] 1 5 1).2 2 5 1).1 = false
    ∧ (update_distance_for_date 5 0 (update_distance_for_date 5 0 [] 1 5 1).2 2 5 1).2
        = (update_distance_for_date 5 0 [] 1 5 1).2
    ∧ get_distance_for_date
        (update_distance_for_date 5 0 (update_distance_for_date 5 0 [] 1 5 1).2 2 5 1).2
        2 5 = 0 := by
  norm_num [update_distance_for_date, get_distance_for_date, cleanup_old_data, rowMatches,
    List.find?, List.filter, List.any]

/-- C6: any sequence of merges with delta at or below the `0.02` noise floor
returns `false` each time and is a true no-op — the table after the whole
sequence equals the table before. -/
theorem C6_noise_floor_noop (today : ℤ) (now : ℚ) (t : List Row)
    (calls : List (ℤ × ℤ × ℚ)) (h : ∀ c ∈ calls, c.2.2 ≤ 1/50) :
    merges_noop_spec today now t calls :=
  ⟨apply_merges_noop today now t calls h,
   fun c hc => update_distance_for_date_noise today now t c.1 c.2.1 c.2.2 (h c hc)⟩

theorem C6_noise_floor_noop_witness :
    merges_noop_spec 0 0 conflicting_table [(1, 0, 1/100), (2, 0, 0)] :=
  C6_noise_floor_noop 0 0 conflicting_table [(1, 0, 1/100), (2, 0, 0)] (by
    intro c hc
    simp only [List.mem_cons, List.mem_singleton] at hc
    rcases hc with rfl | rfl | hc
    · norm_num
    · norm_num
    · simp at hc)

/-- C4: when the wall-clock date differs from `current_date`, the rollover
performs exactly the claimed steps — reports the change, flushes the session
distance to the old date exactly when connected and above the noise floor
(ignoring the write's outcome), shifts today's total into yesterday's, adopts
the new date, reloads today's total from the post-flush table (0 when not
connected, and `get_distance_for_date` defaults to 0 when no record exists),
and resets the session distance to 0. -/
theorem C4_rollover (today : ℤ) (now : ℚ) (s : Stats) (t : List Row)
    (h : today ≠ s.current_date) : rollover_step_spec today now s t := by
  simp [rollover_step_spec, check_date_change, h]

theorem C4_rollover_witness : rollover_step_spec 1 0 pending_session_stats conflicting_table :=
  C4_rollover 1 0 pending_session_stats conflicting_table (by decide)

/-- C8: a `_check_date_change` at the changed date reports the rollover, and
after any one of the four public `Statistics` operations has run at that date,
a second `_check_date_change` returns `false` and leaves the statistics and
table exactly as they were — the rollover happens exactly once. -/
theorem C8_rollover_idempotent (today : ℤ) (now now2 v d : ℚ) (s : Stats)
    (t : List Row) (h : today ≠ s.current_date) :
    rollover_once_spec today now now2 v d s t := by
  refine ⟨?_, ?_, ?_, ?_, ?_⟩
  · simp [check_date_change, h]
  · exact check_date_change_eq_self today now2 _ _
      (update_speed_current_date today now v s t).symm
  · exact check_date_change_eq_self today now2 _ _
      (add_distance_current_date today now d s t).symm
  · exact check_date_change_eq_self today now2 _ _
      (save_to_database_current_date today now s t).symm
  · exact check_date_change_eq_self today now2 _ _
      (get_total_today_distance_current_date today now s t).symm

theorem C8_rollover_idempotent_witness :
    rollover_once_spec 1 0 2 3 4 pending_session_stats conflicting_table :=
  C8_rollover_idempotent 1 0 2 3 4 pending_session_stats conflicting_table (by decide)

/-- C9: distance integration is linear — `calculate_distance` is
`speed * elapsed / 3600`, `add_distance` adds exactly that delta to the session
distance (when no rollover is pending), and the concrete scenario holds: from
an empty table, recording speed 10 then integrating 10 mph over 360 s yields a
session distance of exactly 1, after which `save_to_database` returns `true`
and the stored distance for today is 1. -/
theorem C9_linear_integration :
    (∀ sp e : ℚ, calculate_distance sp e = sp * e / 3600)
    ∧ (∀ (today : ℤ) (now d : ℚ) (s : Stats) (t : List Row), today = s.current_date →
        (add_distance today now d s t).1.session_distance = s.session_distance + d)
    ∧ (add_distance 0 0 (calculate_distance 10 360)
        (update_speed 0 0 10 (Stats.init 13500 true 0 []) []).1
        (update_speed 0 0 10 (Stats.init 13500 true 0 []) []).2).1.session_distance = 1
    ∧ (save_to_database 0 1
        (add_distance 0 0 (calculate_distance 10 360)
          (update_speed 0 0 10 (Stats.init 13500 true 0 []) []).1
          (update_speed 0 0 10 (Stats.init 13500 true 0 []) []).2).1
        (add_distance 0 0 (calculate_distance 10 360)
          (update_speed 0 0 10 (Stats.init 13500 true 0 []) []).1
          (update_speed 0 0 10 (Stats.init 13500 true 0 []) []).2).2).1 = true
    ∧ get_distance_for_date
        (save_to_database 0 1
          (add_distance 0 0 (calculate_distance 10 360)
            (update_speed 0 0 10 (Stats.init 13500 true 0 []) []).1
            (update_speed 0 0 10 (Stats.init 13500 true 0 []) []).2).1
          (add_distance 0 0 (calculate_distance 10 360)
            (update_speed 0 0 10 (Stats.init 13500 true 0 []) []).1
            (update_speed 0 0 10 (Stats.init 13500 true 0 []) []).2).2).2.2 13500 0
        = 1 := by
  refine ⟨?_, ?_, ?_, ?_, ?_⟩
  · intro sp e
    unfold calculate_distance
    ring
  · intro today now d s t h
    simp [add_distance, check_date_change_eq_self today now s t h]
  · norm_num [add_distance, calculate_distance, update_speed, check_date_change, Stats.init,
      get_distance_for_date, List.find?]
  · norm_num [save_to_database, add_distance, calculate_distance, update_speed,
      check_date_change, Stats.init, get_distance_for_date, update_distance_for_date,
      cleanup_old_data, rowMatches, List.find?, List.filter, List.any]
  · norm_num [save_to_database, add_distance, calculate_distance, update_speed,
      check_date_change, Stats.init, get_distance_for_date, update_distance_for_date,
      cleanup_old_data, rowMatches, List.find?, List.filter, List.any]

theorem C9_linear_integration_witness :
    (add_distance 0 0 5 (Stats.init 1 false 0 []) []).1.session_distance
      = (Stats.init 1 false 0 []).session_distance + 5 :=
  C9_linear_integration.2.1 0 0 5 (Stats.init 1 false 0 []) [] rfl

/-- C10: the rollover's state updates do not depend on the flush's outcome —
for any table and connection flag (including tables on which the flush to the
old date fails, and the disconnected case) the new date is adopted and the
session distance is zeroed; and whenever that flush would fail, the table is
left unchanged, so the old day's unflushed session distance is discarded
rather than kept for a retry. -/
theorem C10_rollover_discards_unflushed (today : ℤ) (now : ℚ) (s : Stats)
    (t : List Row) (h : today ≠ s.current_date) :
    rollover_discard_spec today now s t := by
  refine ⟨check_date_change_current_date today now s t, ?_, ?_⟩
  · simp [check_date_change, h]
  · intro hfail
    unfold check_date_change
    rw [if_neg h]
    dsimp only
    split
    · exact update_distance_for_date_fail today now t s.device_id s.current_date
        s.session_distance hfail
    · rfl

theorem C10_rollover_discards_unflushed_witness :
    rollover_discard_spec 1 0 pending_session_stats conflicting_table :=
  C10_rollover_discards_unflushed 1 0 pending_session_stats conflicting_table (by decide)

theorem save_to_database_noop_of_small (today : ℤ) (now : ℚ) (s : Stats) (t : List Row)
    (h : today = s.current_date) (hsd : s.session_distance ≤ 1/50) :
    save_to_database today now s t = (false, s, t) := by
  unfold save_to_database
  rw [check_date_change_eq_self today now s t h]
  dsimp only
  rw [if_pos (Or.inr hsd)]

/-- C7: with no date change pending, `save_to_database` returns `true` exactly
when a ledger write occurred (connected, session distance above the noise
floor, and the merge succeeded); below the floor or disconnected it is a
complete no-op returning `false`; a successful flush moves the session
distance into `today_distance` (so their sum — the total for today — is
unchanged) and resets the session distance to 0; and an immediately repeated
call with no new samples is a no-op returning `false`. -/
theorem C7_flush (today : ℤ) (now now2 : ℚ) (s : Stats) (t : List Row)
    (h : today = s.current_date) : flush_spec today now now2 s t := by
  have hc : check_date_change today now s t = (false, s, t) :=
    check_date_change_eq_self today now s t h
  by_cases hcond : s.db_connected = false ∨ s.session_distance ≤ 1/50
  · have hsave : save_to_database today now s t = (false, s, t) := by
      unfold save_to_database
      rw [hc]
      dsimp only
      rw [if_pos hcond]
    refine ⟨?_, fun _ => hsave, ?_, ?_⟩
    · rw [hsave]
      constructor
      · intro hfalse
        exact absurd hfalse (by simp)
      · rintro ⟨h1, h2, -⟩
        rcases hcond with h3 | h3
        · rw [h1] at h3
          exact absurd h3 (by simp)
        · exact absurd h2 (not_lt.mpr h3)
    · intro hfalse
      rw [hsave] at hfalse
      exact absurd hfalse (by simp)
    · intro hfalse
      rw [hsave] at hfalse
      exact absurd hfalse (by simp)
  · have hdb : s.db_connected = true := by
      rcases Bool.eq_false_or_eq_true s.db_connected with hb | hb
      · exact hb
      · exact absurd (Or.inl hb) hcond
    have hfloor : 1/50 < s.session_distance := by
      by_contra hle
      exact hcond (Or.inr (not_lt.mp hle))
    cases hu : (update_distance_for_date today now t s.device_id s.current_date
        s.session_distance).1 with
    | true =>
      have hsave : save_to_database today now s t
          = (true,
             { s with
               today_distance := s.today_distance + s.session_distance
               session_distance := 0 },
             (update_distance_for_date today now t s.device_id s.current_date
               s.session_distance).2) := by
        unfold save_to_database
        rw [hc]
        dsimp only
        rw [if_neg hcond, if_pos hu]
      refine ⟨?_, ?_, ?_, ?_⟩
      · rw [hsave]
        exact ⟨fun _ => ⟨hdb, hfloor, hu⟩, fun _ => rfl⟩
      · intro hcond3
        exact absurd hcond3 hcond
      · intro _
        rw [hsave]
        refine ⟨rfl, rfl, ?_⟩
        dsimp only
        ring
      · intro _
        rw [hsave]
        dsimp only
        exact save_to_database_noop_of_small today now2 _ _ h (by norm_num)
    | false =>
      have hsave : save_to_database today now s t
          = (false, s,
             (update_distance_for_date today now t s.device_id s.current_date
               s.session_distance).2) := by
        unfold save_to_database
        rw [hc]
        dsimp only
        rw [if_neg hcond, if_neg (by simp [hu])]
      refine ⟨?_, ?_, ?_, ?_⟩
      · rw [hsave]
        constructor
        · intro hfalse
          exact absurd hfalse (by simp)
        · rintro ⟨-, -, h3⟩
          rw [h3] at hu
          exact absurd hu (by simp)
      · intro hcond3
        exact absurd hcond3 hcond
      · intro hfalse
        rw [hsave] at hfalse
        exact absurd hfalse (by simp)
      · intro hfalse
        rw [hsave] at hfalse
        exact absurd hfalse (by simp)

theorem C7_flush_witness : flush_spec 0 0 1 pending_session_stats conflicting_table :=
  C7_flush 0 0 1 pending_session_stats conflicting_table rfl

theorem find?_map_update (now dist : ℚ) (target_date device_id : ℤ) (t : List Row) :
    (t.map (fun r =>
        if rowMatches target_date device_id r then
          { r with distance := r.distance + dist, last_updated := now }
        else r)).find? (rowMatches target_date device_id)
      = (t.find? (rowMatches target_date device_id)).map
          (fun r => { r with distance := r.distance + dist, last_updated := now }) := by
  induction t with
  | nil => rfl
  | cons a t ih =>
    by_cases hq : rowMatches target_date device_id a = true
    · have hq2 : rowMatches target_date device_id
          { a with distance := a.distance + dist, last_updated := now } = true := hq
      rw [List.map_cons, if_pos hq, List.find?_cons_of_pos _ hq2,
        List.find?_cons_of_pos _ hq]
      rfl
    · rw [List.map_cons, if_neg hq, List.find?_cons_of_neg _ hq,
        List.find?_cons_of_neg _ hq, ih]

/-- C5, counterexample: with wall-clock today = day 10, a merge of delta 1
(> 0.02) for the stale day 0 on an empty table *succeeds* (returns `true`) —
the insert commits — but the cleanup that follows immediately evicts the new
row, so the stored distance afterwards is 0, not prior + delta = 1. -/
theorem C5_counterexample :
    (1 : ℚ)/50 < 1
    ∧ (update_distance_for_date 10 0 [] 1 0 1).1 = true
    ∧ get_distance_for_date (update_distance_for_date 10 0 [] 1 0 1).2 1 0 = 0
    ∧ get_distance_for_date ([] : List Row) 1 0 + 1 = 1
    ∧ (0 : ℚ) ≠ 1 := by
  refine ⟨by norm_num, ?_, ?_, ?_, by norm_num⟩
  · norm_num [update_distance_for_date, get_distance_for_date, cleanup_old_data,
      rowMatches, List.find?, List.filter, List.any]
  · norm_num [update_distance_for_date, get_distance_for_date, cleanup_old_data,
      rowMatches, List.find?, List.filter, List.any]
  · norm_num [get_distance_for_date, List.find?]

/-- C5, amended: for a target date that is wall-clock today or yesterday, a
successful `update_distance_for_date` with delta above the noise floor makes
the stored distance for the key equal the prior value plus the delta (creating
the record from 0 when absent), and afterwards no row dated outside
{today, yesterday} remains in the table. -/
theorem C5_merge_adds (today : ℤ) (now : ℚ) (t : List Row)
    (device_id target_date : ℤ) (dist : ℚ)
    (hdate : target_date = today ∨ target_date = today - 1)
    (hdist : 1/50 < dist)
    (hok : (update_distance_for_date today now t device_id target_date dist).1 = true) :
    merge_get_spec today now t device_id target_date dist := by
  have hfloor : ¬ dist ≤ 1/50 := not_le.mpr hdist
  have hqp : ∀ x : Row, rowMatches target_date device_id x = true →
      (x.date == today || x.date == today - 1) = true := by
    intro x hx
    have hxd : x.date = target_date := by
      simp only [rowMatches, Bool.and_eq_true, beq_iff_eq] at hx
      exact hx.1
    rcases hdate with hd | hd
    · simp [hxd, hd]
    · simp [hxd, hd]
  unfold merge_get_spec
  unfold update_distance_for_date at hok ⊢
  rw [if_neg hfloor] at hok ⊢
  cases hfind : t.find? (rowMatches target_date device_id) with
  | some r =>
    simp only [hfind]
    constructor
    · unfold get_distance_for_date cleanup_old_data
      rw [find?_filter_eq_of_imp _ _ _ hqp, find?_map_update, hfind]
      rfl
    · intro r2 hr2
      exact mem_cleanup_old_data today _ r2 hr2
  | none =>
    simp only [hfind] at hok ⊢
    by_cases hany : (t.any fun r => r.date == target_date) = true
    · rw [if_pos hany] at hok
      exact absurd hok (by simp)
    · rw [if_neg hany] at hok ⊢
      dsimp only
      constructor
      · unfold get_distance_for_date cleanup_old_data
        rw [find?_filter_eq_of_imp _ _ _ hqp, List.find?_append, hfind]
        have hqnew : rowMatches target_date device_id
            { date := target_date, device_id := device_id, distance := dist,
              last_updated := now } = true := by
          simp [rowMatches]
        rw [List.find?_cons_of_pos _ hqnew]
        simp
      · intro r2 hr2
        exact mem_cleanup_old_data today _ r2 hr2

theorem C5_merge_adds_witness : merge_get_spec 5 0 [] 1 5 1 :=
  C5_merge_adds 5 0 [] 1 5 1 (Or.inl rfl) (by norm_num)
    (by norm_num [update_distance_for_date, rowMatches, List.find?, List.any])
